import Mathlib

/-!
Verification of the booking orchestration in lib/booking-service.ts.

The network is modelled by a FetchResult type: a fetch either rejects with a
network error, or yields an HTTP reply carrying its ok flag and a body whose
JSON parse may itself fail. An Env structure supplies the outcome of each
outbound call (as a function of the request actually sent), the freshly
generated UUID, the values read from localStorage and process.env, and
abstract date-parsing and date-formatting functions standing for
new Date(s).getTime() and new Date(ms).toISOString(). createBooking returns
its result together with the list of outbound calls it made, so that claims
about which calls happen and with which payloads are statable.
-/

namespace BookingService

/-- The BookingRequest interface of booking-service.ts. -/
structure BookingRequest where
  service_variation_id : String
  team_member_id : String
  start_at : String
  service_variation_version : Option Nat
  customer_note : Option String
  idempotencyKey : Option String
deriving Repr, DecidableEq

/-- The SquareBookingRequest interface: the payload sent to the provider
booking-creation endpoint. -/
structure SquareBookingRequest where
  serviceVariationId : String
  teamMemberId : String
  customerId : Option String
  startAt : String
  serviceVariationVersion : Option Nat
  customerNote : Option String
  idempotencyKey : String
  locationId : String
deriving Repr, DecidableEq

/-- The booking object optionally carried by a provider response. -/
structure SquareBooking where
  id : String
  status : String
  startAt : String
  locationId : String
  customerId : Option String
  createdAt : String
  version : String
deriving Repr, DecidableEq

/-- The SquareBookingResponse interface: parsed body of the provider call. -/
structure SquareBookingResponse where
  success : Bool
  booking : Option SquareBooking
  message : Option String
deriving Repr, DecidableEq

/-- The data field of a backend BookingResponse. -/
structure BookingData where
  id : Int
  square_booking_id : String
  service_name : String
  start_at : String
  end_at : String
  status : String
deriving Repr, DecidableEq

/-- The BookingResponse interface: parsed body of the backend sync call. -/
structure BookingResponse where
  data : BookingData
  status_code : Int
  message : String
deriving Repr, DecidableEq

/-- One appointment segment of a TimeSlot. -/
structure AppointmentSegment where
  duration_minutes : Nat
  service_variation_id : String
  team_member_id : String
  service_variation_version : Nat
deriving Repr, DecidableEq

/-- The TimeSlot interface. -/
structure TimeSlot where
  start_at : String
  location_id : String
  formatted_time : Option String
  appointment_segments : List AppointmentSegment
deriving Repr, DecidableEq

/-- The AvailabilityResponse interface. -/
structure AvailabilityResponse where
  availabilities_by_date : List (String × List TimeSlot)
  errors : List String
deriving Repr, DecidableEq

/-- The JSON envelope returned by the availability-search endpoint; the
source returns its data field. -/
structure AvailabilityEnvelope where
  data : AvailabilityResponse
deriving Repr, DecidableEq

/-- The body sent to the availability-search endpoint. -/
structure AvailabilitySearchRequest where
  service_variation_id : String
  start_at : String
  end_at : String
deriving Repr, DecidableEq

/-- Outcome of one fetch call: the promise rejects with a network error, or
an HTTP reply arrives with its ok flag and a body whose JSON parse may
fail. -/
inductive FetchResult (β : Type) where
  | netError (e : String)
  | reply (ok : Bool) (body : Except String β)
deriving Repr

/-- JavaScript s || d for an optional string s: undefined and the empty
string are falsy. -/
def orElseStr (s : Option String) (d : String) : String :=
  match s with
  | none => d
  | some v => if v = "" then d else v

/-- JavaScript v || undefined for an optional string: the empty string
collapses to undefined. -/
def undefIfFalsy (s : Option String) : Option String :=
  match s with
  | none => none
  | some v => if v = "" then none else some v

/-- Truthiness of an optional string, as JavaScript tests it. -/
def truthyStr (s : Option String) : Bool :=
  match s with
  | none => false
  | some v => v != ""

/-- The request body of the backend sync call: the spread of the
BookingRequest, plus square_booking_id when a truthy one was supplied. -/
structure SyncPayload where
  booking : BookingRequest
  square_booking_id : Option String
deriving Repr, DecidableEq

/-- requestData of syncBookingWithBackend: squareBookingId is attached only
when truthy. -/
def syncRequestData (b : BookingRequest) (squareBookingId : Option String) :
    SyncPayload :=
  if truthyStr squareBookingId then ⟨b, squareBookingId⟩ else ⟨b, none⟩

/-- The environment of one booking attempt: outcomes of the two outbound
calls as functions of the request sent, the UUID crypto.randomUUID would
return, the localStorage and process.env reads, and abstract date
conversion functions. -/
structure Env where
  squareFetch : SquareBookingRequest → FetchResult SquareBookingResponse
  backendFetch : SyncPayload → FetchResult BookingResponse
  freshUUID : String
  squareCustomerId : Option String
  squareLocationId : Option String
  dateMs : String → Int
  isoOfMs : Int → String

/-- Body of createSquareBooking before its catch clause: parse the body,
then throw unless response.ok and data.success both hold. -/
def createSquareBookingBody (r : FetchResult SquareBookingResponse) :
    Except String SquareBookingResponse := do
  match r with
  | .netError e => throw e
  | .reply ok body =>
    let data ← body
    if !ok || !data.success then
      throw (orElseStr data.message "Failed to create Square booking")
    else
      return data

/-- createSquareBooking: its catch clause logs and rethrows, so the overall
outcome is that of the body. -/
def createSquareBooking (r : FetchResult SquareBookingResponse) :
    Except String SquareBookingResponse :=
  match createSquareBookingBody r with
  | .ok d => .ok d
  | .error e => .error e

/-- Body of syncBookingWithBackend before its catch clause: parse the body,
then return it when response.ok and null otherwise. -/
def syncBody (r : FetchResult BookingResponse) :
    Except String (Option BookingResponse) := do
  match r with
  | .netError e => throw e
  | .reply ok body =>
    let data ← body
    return (if ok then some data else none)

/-- syncBookingWithBackend: builds requestData, performs the fetch, and
never rejects — its catch clause converts every error to null. -/
def syncBookingWithBackend (env : Env) (bookingData : BookingRequest)
    (squareBookingId : Option String) : Option BookingResponse :=
  match syncBody (env.backendFetch (syncRequestData bookingData squareBookingId)) with
  | .ok v => v
  | .error _ => none

/-- The idempotency key createBooking settles on:
bookingData.idempotencyKey || crypto.randomUUID(). -/
def chosenKey (env : Env) (b : BookingRequest) : String :=
  orElseStr b.idempotencyKey env.freshUUID

/-- The SquareBookingRequest createBooking sends to the provider. -/
def squareRequestOf (env : Env) (b : BookingRequest) : SquareBookingRequest :=
  { serviceVariationId := b.service_variation_id
    teamMemberId := b.team_member_id
    startAt := b.start_at
    serviceVariationVersion := b.service_variation_version
    customerNote := b.customer_note
    idempotencyKey := chosenKey env b
    locationId := (env.squareLocationId).getD ""
    customerId := undefIfFalsy env.squareCustomerId }

/-- Outcome of the provider call inside createBooking. -/
def squareOutcome (env : Env) (b : BookingRequest) :
    Except String SquareBookingResponse :=
  createSquareBooking (env.squareFetch (squareRequestOf env b))

/-- The BookingRequest passed to the backend sync: the original request with
the settled idempotency key spliced in. -/
def syncDataOf (env : Env) (b : BookingRequest) : BookingRequest :=
  { b with idempotencyKey := some (chosenKey env b) }

/-- The synthetic end time: start_at parsed, plus 3600000 ms, re-rendered
as an ISO string. -/
def syntheticEndAt (env : Env) (startAt : String) : String :=
  env.isoOfMs (env.dateMs startAt + 3600000)

/-- The synthetic BookingResponse assembled when the provider booking
succeeded but the backend sync returned null. -/
def syntheticResponse (env : Env) (booking : SquareBooking) : BookingResponse :=
  { data :=
    { id := 0
      square_booking_id := booking.id
      service_name := "Your appointment"
      start_at := booking.startAt
      end_at := syntheticEndAt env booking.startAt
      status := orElseStr (some booking.status) "ACCEPTED" }
    status_code := 200
    message := "Booking created in Square but not yet synced with backend" }

/-- An outbound call createBooking makes, with the payload it sends. -/
inductive Call where
  | squareCall (req : SquareBookingRequest)
  | syncCall (payload : SyncPayload)
deriving Repr, DecidableEq

/-- createBooking: create the provider booking (propagating failure), then
sync with the backend, then reconcile the outcomes; returns its result and
the list of outbound calls made. -/
def createBooking (env : Env) (b : BookingRequest) :
    Except String BookingResponse × List Call :=
  match squareOutcome env b with
  | .error e => (.error e, [Call.squareCall (squareRequestOf env b)])
  | .ok squareResponse =>
    let syncData := syncDataOf env b
    let sbId := squareResponse.booking.map SquareBooking.id
    let backendResponse := syncBookingWithBackend env syncData sbId
    let calls := [Call.squareCall (squareRequestOf env b),
                  Call.syncCall (syncRequestData syncData sbId)]
    match backendResponse, squareResponse.booking with
    | none, some booking => (.ok (syntheticResponse env booking), calls)
    | some br, _ => (.ok br, calls)
    | none, none =>
      (.error "Failed to create booking in both Square and backend systems", calls)

/-- searchAvailability: build the request body, send it, throw on a non-ok
reply, otherwise parse and return the data field; returns its result and
the request body sent. -/
def searchAvailability (env : Env) (serviceVariationId : String)
    (startDate endDate : Int) (r : FetchResult AvailabilityEnvelope) :
    Except String AvailabilityResponse × AvailabilitySearchRequest :=
  let req : AvailabilitySearchRequest :=
    ⟨serviceVariationId, env.isoOfMs startDate, env.isoOfMs endDate⟩
  match r with
  | .netError e => (.error e, req)
  | .reply ok body =>
    if !ok then (.error "Failed to fetch availability", req)
    else
      match body with
      | .error e => (.error e, req)
      | .ok d => (.ok d.data, req)

/-! Concrete fixtures used by witnesses and counterexamples. -/

/-- An environment whose two fetches return fixed outcomes. -/
def envOf (sq : FetchResult SquareBookingResponse)
    (bk : FetchResult BookingResponse) : Env :=
  { squareFetch := fun _ => sq
    backendFetch := fun _ => bk
    freshUUID := "uuid-1234"
    squareCustomerId := none
    squareLocationId := some "LOC1"
    dateMs := fun _ => 0
    isoOfMs := fun n => toString n }

/-- A sample BookingRequest with no caller-supplied idempotency key. -/
def sampleRequest : BookingRequest :=
  ⟨"svc-var", "tm-1", "2025-01-01T10:00:00Z", none, none, none⟩

/-- A sample provider-side booking object. -/
def sampleBooking : SquareBooking :=
  ⟨"sq-bk-1", "ACCEPTED", "2025-01-01T10:00:00Z", "LOC1", none,
   "2025-01-01T09:00:00Z", "1"⟩

/-- A successful provider response carrying a booking object. -/
def okSquareResp : SquareBookingResponse := ⟨true, some sampleBooking, none⟩

/-- A successful provider response with no booking object in its body. -/
def noBookingResp : SquareBookingResponse := ⟨true, none, none⟩

/-- A sample backend sync response. -/
def sampleBackendResp : BookingResponse :=
  ⟨⟨7, "sq-bk-1", "Haircut", "2025-01-01T10:00:00Z", "2025-01-01T10:45:00Z",
    "CONFIRMED"⟩, 201, "ok"⟩

/-! Claim theorems. -/

/-- C1: for every BookingRequest, if the provider booking-creation call
fails, createBooking rejects with that failure and the backend sync call is
never invoked. -/
theorem provider_failure_rejects_and_skips_sync (env : Env) (b : BookingRequest)
    (e : String) (h : squareOutcome env b = .error e) :
    (createBooking env b).1 = .error e ∧
      ∀ p, Call.syncCall p ∉ (createBooking env b).2 := by
  unfold createBooking
  rw [h]
  refine ⟨rfl, ?_⟩
  intro p hp
  simp at hp

/-- Witness for C1: a network error on the provider call propagates and the
trace holds no sync call. -/
theorem provider_failure_witness :
    squareOutcome (envOf (.netError "network down") (.netError "backend down"))
        sampleRequest = .error "network down" ∧
      ((createBooking (envOf (.netError "network down") (.netError "backend down"))
          sampleRequest).1 = .error "network down" ∧
        ∀ p, Call.syncCall p ∉
          (createBooking (envOf (.netError "network down") (.netError "backend down"))
            sampleRequest).2) :=
  ⟨rfl, provider_failure_rejects_and_skips_sync _ sampleRequest "network down" rfl⟩

/-- C2: if the provider call succeeds with a booking object and the backend
sync returns null, createBooking returns the synthetic response, whose
status_code is 200, whose data.id is 0, and whose data.end_at is the
booking's start_at parsed, plus 3600000 ms, rendered back to ISO. -/
theorem sync_failure_returns_synthetic (env : Env) (b : BookingRequest)
    (sresp : SquareBookingResponse) (booking : SquareBooking)
    (h1 : squareOutcome env b = .ok sresp)
    (h2 : sresp.booking = some booking)
    (h3 : syncBookingWithBackend env (syncDataOf env b)
        (sresp.booking.map SquareBooking.id) = none) :
    (createBooking env b).1 = .ok (syntheticResponse env booking) ∧
      (syntheticResponse env booking).status_code = 200 ∧
      (syntheticResponse env booking).data.id = 0 ∧
      (syntheticResponse env booking).data.end_at =
        env.isoOfMs (env.dateMs booking.startAt + 3600000) := by
  unfold createBooking
  rw [h1]
  rw [h2] at h3
  simp only [h2, h3]
  exact ⟨trivial, rfl, rfl, rfl⟩

/-- Witness for C2: provider succeeds, backend fetch is a network error, and
the synthetic response comes back. -/
theorem sync_failure_witness :
    squareOutcome (envOf (.reply true (.ok okSquareResp)) (.netError "backend down"))
        sampleRequest = .ok okSquareResp ∧
      ((createBooking (envOf (.reply true (.ok okSquareResp)) (.netError "backend down"))
          sampleRequest).1 =
        .ok (syntheticResponse
          (envOf (.reply true (.ok okSquareResp)) (.netError "backend down"))
          sampleBooking) ∧
        (syntheticResponse
          (envOf (.reply true (.ok okSquareResp)) (.netError "backend down"))
          sampleBooking).status_code = 200 ∧
        (syntheticResponse
          (envOf (.reply true (.ok okSquareResp)) (.netError "backend down"))
          sampleBooking).data.id = 0 ∧
        (syntheticResponse
          (envOf (.reply true (.ok okSquareResp)) (.netError "backend down"))
          sampleBooking).data.end_at =
          (envOf (.reply true (.ok okSquareResp)) (.netError "backend down")).isoOfMs
            ((envOf (.reply true (.ok okSquareResp)) (.netError "backend down")).dateMs
              sampleBooking.startAt + 3600000)) :=
  ⟨rfl, sync_failure_returns_synthetic _ sampleRequest okSquareResp sampleBooking
    rfl rfl rfl⟩

/-- C3: if the provider call succeeds and the backend sync returns a
non-null response, createBooking returns exactly the backend's response. -/
theorem sync_success_returns_backend_response (env : Env) (b : BookingRequest)
    (sresp : SquareBookingResponse) (br : BookingResponse)
    (h1 : squareOutcome env b = .ok sresp)
    (h2 : syncBookingWithBackend env (syncDataOf env b)
        (sresp.booking.map SquareBooking.id) = some br) :
    (createBooking env b).1 = .ok br := by
  unfold createBooking
  rw [h1]
  simp only [h2]

/-- Witness for C3: both calls succeed and the backend's response is
returned verbatim. -/
theorem sync_success_witness :
    squareOutcome (envOf (.reply true (.ok okSquareResp))
        (.reply true (.ok sampleBackendResp))) sampleRequest = .ok okSquareResp ∧
      syncBookingWithBackend
        (envOf (.reply true (.ok okSquareResp)) (.reply true (.ok sampleBackendResp)))
        (syncDataOf (envOf (.reply true (.ok okSquareResp))
          (.reply true (.ok sampleBackendResp))) sampleRequest)
        (okSquareResp.booking.map SquareBooking.id) = some sampleBackendResp ∧
      (createBooking (envOf (.reply true (.ok okSquareResp))
        (.reply true (.ok sampleBackendResp))) sampleRequest).1 =
        .ok sampleBackendResp :=
  ⟨rfl, rfl, sync_success_returns_backend_response _ sampleRequest okSquareResp
    sampleBackendResp rfl rfl⟩

/-- A BookingRequest whose caller-supplied idempotency key is the empty
string, which JavaScript treats as falsy. -/
def emptyKeyRequest : BookingRequest :=
  ⟨"svc-var", "tm-1", "2025-01-01T10:00:00Z", none, none, some ""⟩

/-- C4 counterexample: with a caller-supplied idempotency key that is the
empty string, the key actually sent to the provider is the freshly
generated UUID, not the caller-supplied key, refuting the claim's
parenthetical that the caller-supplied key is used whenever present. -/
theorem caller_key_present_but_ignored :
    emptyKeyRequest.idempotencyKey = some "" ∧
      Call.squareCall (squareRequestOf
          (envOf (.reply true (.ok okSquareResp)) (.netError "backend down"))
          emptyKeyRequest) ∈
        (createBooking (envOf (.reply true (.ok okSquareResp)) (.netError "backend down"))
          emptyKeyRequest).2 ∧
      (squareRequestOf (envOf (.reply true (.ok okSquareResp)) (.netError "backend down"))
          emptyKeyRequest).idempotencyKey = "uuid-1234" ∧
      ("uuid-1234" : String) ≠ "" := by
  refine ⟨rfl, ?_, rfl, by decide⟩
  decide

/-- C4 amended: whenever the provider call succeeds, the backend sync call
is attempted (it appears in the call trace), the idempotency key inside the
sync request equals the key sent to the provider, and that key is the
caller-supplied one when present and non-empty, otherwise the single
freshly generated UUID. -/
theorem sync_reuses_provider_idempotency_key (env : Env) (b : BookingRequest)
    (sresp : SquareBookingResponse)
    (h : squareOutcome env b = .ok sresp) :
    (createBooking env b).2 =
        [Call.squareCall (squareRequestOf env b),
         Call.syncCall (syncRequestData (syncDataOf env b)
           (sresp.booking.map SquareBooking.id))] ∧
      (syncRequestData (syncDataOf env b)
          (sresp.booking.map SquareBooking.id)).booking.idempotencyKey =
        some (squareRequestOf env b).idempotencyKey ∧
      chosenKey env b =
        (match b.idempotencyKey with
         | some k => if k = "" then env.freshUUID else k
         | none => env.freshUUID) := by
  refine ⟨?_, ?_, ?_⟩
  · unfold createBooking
    rw [h]
    cases hs : syncBookingWithBackend env (syncDataOf env b)
        (sresp.booking.map SquareBooking.id) <;>
      cases hb : sresp.booking <;> simp_all
  · unfold syncRequestData
    split <;> rfl
  · unfold chosenKey orElseStr
    cases b.idempotencyKey <;> rfl

/-- Witness for the amended C4: a successful provider call with no
caller-supplied key; the UUID is reused on the sync call. -/
theorem sync_reuses_key_witness :
    squareOutcome (envOf (.reply true (.ok okSquareResp))
        (.reply true (.ok sampleBackendResp))) sampleRequest = .ok okSquareResp ∧
      ((createBooking (envOf (.reply true (.ok okSquareResp))
          (.reply true (.ok sampleBackendResp))) sampleRequest).2 =
        [Call.squareCall (squareRequestOf (envOf (.reply true (.ok okSquareResp))
            (.reply true (.ok sampleBackendResp))) sampleRequest),
         Call.syncCall (syncRequestData (syncDataOf (envOf (.reply true (.ok okSquareResp))
             (.reply true (.ok sampleBackendResp))) sampleRequest)
           (okSquareResp.booking.map SquareBooking.id))] ∧
        (syncRequestData (syncDataOf (envOf (.reply true (.ok okSquareResp))
            (.reply true (.ok sampleBackendResp))) sampleRequest)
          (okSquareResp.booking.map SquareBooking.id)).booking.idempotencyKey =
          some (squareRequestOf (envOf (.reply true (.ok okSquareResp))
            (.reply true (.ok sampleBackendResp))) sampleRequest).idempotencyKey ∧
        chosenKey (envOf (.reply true (.ok okSquareResp))
            (.reply true (.ok sampleBackendResp))) sampleRequest =
          (match sampleRequest.idempotencyKey with
           | some k => if k = "" then (envOf (.reply true (.ok okSquareResp))
               (.reply true (.ok sampleBackendResp))).freshUUID else k
           | none => (envOf (.reply true (.ok okSquareResp))
               (.reply true (.ok sampleBackendResp))).freshUUID)) :=
  ⟨rfl, sync_reuses_provider_idempotency_key _ sampleRequest okSquareResp rfl⟩

/-- C5 counterexample: the provider call can succeed with a body carrying
success but no booking object; if the backend sync then fails,
createBooking rejects, refuting the claim that a successful provider call
never rejects. -/
theorem provider_success_can_still_reject :
    squareOutcome (envOf (.reply true (.ok noBookingResp)) (.netError "backend down"))
        sampleRequest = .ok noBookingResp ∧
      (createBooking (envOf (.reply true (.ok noBookingResp)) (.netError "backend down"))
          sampleRequest).1 =
        .error "Failed to create booking in both Square and backend systems" :=
  ⟨rfl, rfl⟩

/-- C5 amended: when the provider call succeeds with a booking object
present in its response, createBooking never rejects: either the backend
response or the synthetic fallback is returned. -/
theorem provider_success_with_booking_never_rejects (env : Env)
    (b : BookingRequest) (sresp : SquareBookingResponse) (booking : SquareBooking)
    (h1 : squareOutcome env b = .ok sresp)
    (h2 : sresp.booking = some booking) :
    ∃ r, (createBooking env b).1 = .ok r := by
  unfold createBooking
  rw [h1]
  cases hs : syncBookingWithBackend env (syncDataOf env b)
      (sresp.booking.map SquareBooking.id) <;> simp_all

/-- Witness for the amended C5: provider success with a booking, sync
failing, and a successful result nonetheless. -/
theorem never_lost_witness :
    squareOutcome (envOf (.reply true (.ok okSquareResp)) (.netError "backend closed"))
        sampleRequest = .ok okSquareResp ∧
      okSquareResp.booking = some sampleBooking ∧
      ∃ r, (createBooking (envOf (.reply true (.ok okSquareResp))
          (.netError "backend closed")) sampleRequest).1 = .ok r :=
  ⟨rfl, rfl, provider_success_with_booking_never_rejects _ sampleRequest
    okSquareResp sampleBooking rfl rfl⟩

/-- C6 counterexample: the terminal both-systems-failed branch is
reachable: a provider response with success but no booking object, followed
by a failed sync, lands exactly on the terminal error. -/
theorem terminal_branch_is_reachable :
    (createBooking (envOf (.reply true (.ok noBookingResp)) (.netError "sync down"))
        sampleRequest).1 =
      .error "Failed to create booking in both Square and backend systems" := rfl

/-- C6 amended: when the provider call succeeds, the terminal error is
raised exactly when the provider response carries no booking object and the
backend sync returned null; in particular the branch is unreachable
whenever a booking object is present or the sync succeeds. -/
theorem terminal_error_characterization (env : Env) (b : BookingRequest)
    (sresp : SquareBookingResponse)
    (h : squareOutcome env b = .ok sresp) :
    (createBooking env b).1 =
        .error "Failed to create booking in both Square and backend systems" ↔
      (sresp.booking = none ∧
        syncBookingWithBackend env (syncDataOf env b)
          (sresp.booking.map SquareBooking.id) = none) := by
  unfold createBooking
  rw [h]
  cases hs : syncBookingWithBackend env (syncDataOf env b)
      (sresp.booking.map SquareBooking.id) <;>
    cases hb : sresp.booking <;> simp_all

/-- Witness for the amended C6: a no-booking provider success plus a failed
sync makes the characterization's two sides both true. -/
theorem terminal_error_witness :
    squareOutcome (envOf (.reply true (.ok noBookingResp)) (.netError "backend off"))
        sampleRequest = .ok noBookingResp ∧
      ((createBooking (envOf (.reply true (.ok noBookingResp)) (.netError "backend off"))
          sampleRequest).1 =
          .error "Failed to create booking in both Square and backend systems" ↔
        (noBookingResp.booking = none ∧
          syncBookingWithBackend (envOf (.reply true (.ok noBookingResp))
              (.netError "backend off"))
            (syncDataOf (envOf (.reply true (.ok noBookingResp)) (.netError "backend off"))
              sampleRequest)
            (noBookingResp.booking.map SquareBooking.id) = none)) :=
  ⟨rfl, terminal_error_characterization _ sampleRequest noBookingResp rfl⟩

/-- C7: a non-ok HTTP reply from the availability-search endpoint makes
searchAvailability reject with the hard error, whatever the body holds; no
fallback value is ever returned in that case. -/
theorem availability_non_ok_is_hard_error (env : Env) (svid : String)
    (sd ed : Int) (body : Except String AvailabilityEnvelope) :
    (searchAvailability env svid sd ed (.reply false body)).1 =
      .error "Failed to fetch availability" := rfl

/-- A sample availability payload. -/
def sampleSlots : AvailabilityResponse := ⟨[("2025-01-01", [])], []⟩

/-- The sample availability payload inside its JSON envelope. -/
def sampleEnvelope : AvailabilityEnvelope := ⟨sampleSlots⟩

/-- C8 counterexample: with a start date strictly after the end date,
searchAvailability does not return an error when the backend replies ok; it
returns the parsed data, refuting the claim that such a call returns an
error. -/
theorem inverted_range_returns_data :
    (0 : Int) < 1 ∧
      (searchAvailability (envOf (.netError "x") (.netError "y")) "svc-var" 1 0
        (.reply true (.ok sampleEnvelope))).1 = .ok sampleSlots :=
  ⟨by decide, rfl⟩

/-- C8 amended: searchAvailability performs no date-order validation: when
the start date is strictly after the end date, the outcome is determined
solely by the fetch result — the parsed data on an ok reply, an error only
on network error, non-ok reply, or body-parse failure. -/
theorem inverted_range_outcome (env : Env) (svid : String) (sd ed : Int)
    (h : ed < sd) (r : FetchResult AvailabilityEnvelope) :
    (searchAvailability env svid sd ed r).1 =
      (match r with
       | .netError e => .error e
       | .reply ok body =>
         if ok then
           (match body with
            | .error e => .error e
            | .ok d => .ok d.data)
         else .error "Failed to fetch availability") := by
  unfold searchAvailability
  cases r with
  | netError e => rfl
  | reply ok body => cases ok <;> cases body <;> rfl

/-- Witness for the amended C8: start 5 after end 2, an ok reply, the data
comes back. -/
theorem inverted_range_outcome_witness :
    (2 : Int) < 5 ∧
      (searchAvailability (envOf (.netError "x") (.netError "y")) "svc-var" 5 2
        (.reply true (.ok sampleEnvelope))).1 =
      (match (FetchResult.reply true (.ok sampleEnvelope) :
          FetchResult AvailabilityEnvelope) with
       | .netError e => .error e
       | .reply ok body =>
         if ok then
           (match body with
            | .error e => .error e
            | .ok d => .ok d.data)
         else .error "Failed to fetch availability") :=
  ⟨by decide, inverted_range_outcome _ "svc-var" 5 2 (by decide) _⟩

/-- C9: syncBookingWithBackend is total and never rejects: it returns the
parsed body exactly when the HTTP reply is ok and the body parses, and
returns null in every other case — non-ok reply, network error, or
body-parse failure. -/
theorem sync_never_rejects (env : Env) (b : BookingRequest)
    (sbid : Option String) :
    syncBookingWithBackend env b sbid =
      (match env.backendFetch (syncRequestData b sbid) with
       | .reply true (.ok d) => some d
       | _ => none) := by
  unfold syncBookingWithBackend syncBody
  cases env.backendFetch (syncRequestData b sbid) with
  | netError e => rfl
  | reply ok body => cases ok <;> cases body <;> rfl

/-- C10: createSquareBooking returns the parsed body exactly when the HTTP
reply is ok and the body parses with its success flag true; every other
outcome rejects — including an HTTP 200 whose body carries success false —
and a missing booking object does not prevent the success case. -/
theorem square_booking_ok_iff (r : FetchResult SquareBookingResponse)
    (d : SquareBookingResponse) :
    createSquareBooking r = .ok d ↔
      (r = .reply true (.ok d) ∧ d.success = true) := by
  unfold createSquareBooking createSquareBookingBody
  cases r with
  | netError e => simp
  | reply ok body =>
    rcases body with e | data
    · cases ok <;> simp [Bind.bind, Except.bind]
    · cases hsucc : data.success <;> cases ok <;>
        simp [Bind.bind, Except.bind, Pure.pure, Except.pure, hsucc]
      all_goals (rintro rfl; exact hsucc)

end BookingService
